import Mathlib

/-
Shallow embedding of the bearer-token authentication subsystem of
dcorbe/python-fastapi-example (src/auth/mod.rs and src/state/mod.rs).

Conventions of the embedding:
- Machine timestamps (`i64` seconds since epoch) become `Int`.
- Every `Utc::now()` read inside an operation becomes an explicit `now : Int`
  argument of that operation.
- The JWT library (jsonwebtoken, an external dependency, not repository code)
  is modelled algebraically: a token string is either a well-formed signed
  encoding of a claims payload under a secret, or some other string that does
  not parse as a JWT.  Distinct claims or distinct secrets yield distinct
  token strings, which matches the injectivity of the JWT wire format.
- The `HashMap<String, i64>` blacklist becomes an association list with
  overwrite-on-insert semantics; only its map semantics (lookup, insert,
  retain) are used by the code.
- Operations that hold the blacklist mutex are modelled by explicit state
  passing: each Session operation returns its result together with the
  `AppState` it leaves behind.
-/

namespace FastapiAuth

/-- JWT claims payload, from `struct Claims` in src/auth/mod.rs:
`sub` (subject), `exp` (expiration time), `iat` (issued-at time). -/
structure Claims where
  sub : String
  exp : Int
  iat : Int
deriving DecidableEq, Repr

/-- Model of a JWT token string.  `signed c s` is the well-formed JWT
obtained by encoding claims `c` with secret `s` (the output of
`jsonwebtoken::encode`); `malformed r` is any other string, one that is not
parseable as a JWT at all. -/
inductive TokenStr where
  | signed (claims : Claims) (secret : String)
  | malformed (raw : String)
deriving DecidableEq, Repr

/-- The jsonwebtoken error kinds distinguished by `verify_token` in
src/auth/mod.rs lines 165-169: `ExpiredSignature`, `InvalidToken`, and the
wildcard bucket (signature mismatch and every other decode fault). -/
inductive JwtErrorKind where
  | ExpiredSignature
  | InvalidToken
  | InvalidSignature
deriving DecidableEq, Repr

/-- Default leeway (seconds) of `jsonwebtoken::Validation::default()` used
by its internal expiry check.  No classified outcome of `verify_token`
depends on this constant because the service performs its own strict
`claims.exp < now` comparison afterwards, and both paths yield
`TokenExpired`. -/
def jwtLeeway : Int := 60

/-- Model of `jsonwebtoken::encode` (src/auth/mod.rs line 132): signing the
claims with the secret.  Serialization of the fixed `Claims` struct cannot
fail, so the `TokenCreation` branch of `create_token` is unreachable in the
model. -/
def jwtEncode (claims : Claims) (secret : String) : TokenStr :=
  TokenStr.signed claims secret

/-- Model of `jsonwebtoken::decode::<Claims>` with `Validation::default()`
(src/auth/mod.rs lines 149-154): structural parse, then signature check
against the secret, then the codec-internal expiry check with leeway. -/
def jwtDecode (token : TokenStr) (secret : String) (now : Int) :
    Except JwtErrorKind Claims :=
  match token with
  | TokenStr.malformed _ => Except.error JwtErrorKind.InvalidToken
  | TokenStr.signed c s =>
      if s = secret then
        if c.exp < now - jwtLeeway then Except.error JwtErrorKind.ExpiredSignature
        else Except.ok c
      else Except.error JwtErrorKind.InvalidSignature

/-- The auth error enum, from `enum Error` in src/auth/mod.rs lines 56-70. -/
inductive Error where
  | InvalidCredentials
  | TokenCreation
  | TokenValidation
  | TokenExpired
  | InvalidTokenFormat
  | TokenRevoked
deriving DecidableEq, Repr

/-- HTTP status assigned by `impl From<Error> for (StatusCode, Json<Value>)`
(src/auth/mod.rs lines 74-79). -/
def Error.status : Error → Nat
  | Error.InvalidCredentials => 401
  | Error.TokenExpired => 401
  | Error.TokenCreation => 500
  | Error.TokenValidation => 500
  | Error.InvalidTokenFormat => 400
  | Error.TokenRevoked => 403

/-- Machine-readable code string assigned by the same `From` impl
(src/auth/mod.rs lines 82-89). -/
def Error.code : Error → String
  | Error.TokenExpired => "token_expired"
  | Error.InvalidCredentials => "invalid_credentials"
  | Error.TokenValidation => "token_invalid"
  | Error.TokenCreation => "token_creation_failed"
  | Error.InvalidTokenFormat => "invalid_format"
  | Error.TokenRevoked => "token_revoked"

/-- Human-readable message of each error, from the `thiserror` annotations on
`enum Error` (src/auth/mod.rs lines 58-69). -/
def Error.message : Error → String
  | Error.InvalidCredentials => "Invalid credentials"
  | Error.TokenCreation => "Token creation failed"
  | Error.TokenValidation => "Token validation failed"
  | Error.TokenExpired => "Token has expired"
  | Error.InvalidTokenFormat => "Invalid token format"
  | Error.TokenRevoked => "Token has been revoked"

/-- An HTTP error response `(StatusCode, Json<Value>)`: status, the "error"
message field, and the optional "code" field (the middleware-level header
errors carry no code field). -/
structure ErrResp where
  status : Nat
  error : String
  code : Option String
deriving DecidableEq, Repr

/-- The `(StatusCode, Json<Value>)` produced from an `Error` by the `From`
impl in src/auth/mod.rs lines 72-92. -/
def Error.toResp (e : Error) : ErrResp :=
  { status := e.status, error := e.message, code := some e.code }

/-- The token blacklist `HashMap<String, i64>` of `AppState`
(src/state/mod.rs line 12), modelled as an association list. -/
abbrev Blacklist := List (TokenStr × Int)

/-- `HashMap::contains_key` on the blacklist: exact key equality on the
presented token string. -/
def Blacklist.contains_key (bl : Blacklist) (t : TokenStr) : Bool :=
  bl.any (fun p => decide (p.1 = t))

/-- `HashMap::insert` on the blacklist: overwrite-on-insert map semantics. -/
def Blacklist.insertEntry (bl : Blacklist) (t : TokenStr) (v : Int) : Blacklist :=
  (t, v) :: bl.filter (fun p => decide (p.1 ≠ t))

/-- The parts of `AppState` (src/state/mod.rs lines 10-15) that the auth
code uses: the signing secret and the token blacklist.  The database pool
and URI are external collaborators never touched by the auth operations. -/
structure AppState where
  jwt_secret : String
  token_blacklist : Blacklist
deriving DecidableEq, Repr

/-- `struct LoginRequest` (src/auth/mod.rs lines 38-42). -/
structure LoginRequest where
  username : String
  password : String
deriving DecidableEq, Repr

/-- `struct LoginResponse` (src/auth/mod.rs lines 44-49). -/
structure LoginResponse where
  token : TokenStr
  token_type : String
  token_expires : Int
deriving DecidableEq, Repr

/-- `Session::create_token` (src/auth/mod.rs lines 122-139): mint claims
expiring one hour (3600 s) from `now` and sign them with the state secret. -/
def create_token (st : AppState) (user_id : String) (now : Int) :
    Except Error (TokenStr × Int) :=
  let expires_at : Int := now + 3600
  let claims : Claims := { sub := user_id, exp := expires_at, iat := now }
  Except.ok (jwtEncode claims st.jwt_secret, expires_at)

/-- `Session::login` (src/auth/mod.rs lines 107-120): the hardcoded
credential check (the TODO database lookup), then `create_token`.  The state
is returned unchanged: login never touches the blacklist. -/
def login (st : AppState) (credentials : LoginRequest) (now : Int) :
    Except Error LoginResponse × AppState :=
  (if credentials.username = "admin" ∧ credentials.password = "password" then
    match create_token st credentials.username now with
    | Except.ok (token, expires_at) =>
        Except.ok { token := token, token_type := "Bearer", token_expires := expires_at }
    | Except.error e => Except.error e
   else Except.error Error.InvalidCredentials, st)

/-- The result component of `Session::verify_token` (src/auth/mod.rs lines
142-171): blacklist membership first, then JWT decode, then the explicit
`claims.exp < now` expiry check. -/
def verify_token_result (st : AppState) (token : TokenStr) (now : Int) :
    Except Error Claims :=
  if Blacklist.contains_key st.token_blacklist token then
    Except.error Error.TokenRevoked
  else
    match jwtDecode token st.jwt_secret now with
    | Except.ok claims =>
        if claims.exp < now then Except.error Error.TokenExpired
        else Except.ok claims
    | Except.error e =>
        match e with
        | JwtErrorKind.ExpiredSignature => Except.error Error.TokenExpired
        | JwtErrorKind.InvalidToken => Except.error Error.InvalidTokenFormat
        | _ => Except.error Error.TokenValidation

/-- `Session::verify_token` as a state-passing operation: its lock section
only reads the blacklist (`contains_key`), so the state is returned
unchanged. -/
def verify_token (st : AppState) (token : TokenStr) (now : Int) :
    Except Error Claims × AppState :=
  (verify_token_result st token now, st)

/-- `Session::invalidate_token` (src/auth/mod.rs lines 203-208): run the
full `verify_token` (revocation check included), then insert the raw token
string mapped to its `exp` claim into the blacklist. -/
def invalidate_token (st : AppState) (token : TokenStr) (now : Int) :
    Except Error Unit × AppState :=
  match verify_token_result st token now with
  | Except.ok claims =>
      (Except.ok (),
       { st with token_blacklist := Blacklist.insertEntry st.token_blacklist token claims.exp })
  | Except.error e => (Except.error e, st)

/-- `Session::cleanup_blacklist` (src/auth/mod.rs lines 210-214):
`retain(|_, exp| exp > now)`, i.e. keep exactly the entries whose stored
expiry is strictly greater than `now`. -/
def cleanup_blacklist (st : AppState) (now : Int) : AppState :=
  { st with token_blacklist := st.token_blacklist.filter (fun p => decide (now < p.2)) }

/-- The Authorization header value as seen by `decode_token` after
`to_str().ok()`: either it does not start with the scheme marker
`Bearer followed by a space`, or it does and the remainder is a token
string. -/
inductive HeaderValue where
  | nonBearer (raw : String)
  | bearer (token : TokenStr)
deriving DecidableEq, Repr

/-- `Session::decode_token` (src/auth/mod.rs lines 173-201): extract the
Authorization header (absent or non-UTF8 is `none`), check the scheme
marker, strip it, and delegate the remainder to `verify_token`; errors from
verification are converted through the `From<Error>` mapping. -/
def decode_token (st : AppState) (req : Option HeaderValue) (now : Int) :
    Except ErrResp (TokenStr × Claims) :=
  match req with
  | none =>
      Except.error { status := 401, error := "Missing authorization header", code := none }
  | some (HeaderValue.nonBearer _) =>
      Except.error { status := 401, error := "Invalid authorization header format", code := none }
  | some (HeaderValue.bearer token) =>
      match verify_token_result st token now with
      | Except.error e => Except.error (Error.toResp e)
      | Except.ok claims => Except.ok (token, claims)

/-- The auth `middleware` (src/auth/mod.rs lines 251-264): run
`decode_token`; on failure short-circuit with the error response, on success
attach the claims and run the downstream handler `next`. -/
def middleware {α : Type} (st : AppState) (req : Option HeaderValue) (now : Int)
    (next : Claims → α) : Except ErrResp α :=
  match decode_token st req now with
  | Except.error e => Except.error e
  | Except.ok (_, claims) => Except.ok (next claims)

/-- A blacklist is well-keyed when every entry maps a decodable token string
to that token's own `exp` claim. -/
def tokenExp : TokenStr → Option Int
  | TokenStr.signed c _ => some c.exp
  | TokenStr.malformed _ => none

/-- Invariant of the revocation store: each entry's stored value is the
`exp` claim of the token string that keys it. -/
def BlacklistInv (bl : Blacklist) : Prop :=
  ∀ p ∈ bl, tokenExp p.1 = some p.2

/- Concrete fixtures used by witnesses and counterexamples. -/

/-- A concrete claims value: subject "admin", expiring at 100, issued at 0. -/
def c0 : Claims := { sub := "admin", exp := 100, iat := 0 }

/-- The token signing `c0` with the secret "s". -/
def tok0 : TokenStr := jwtEncode c0 "s"

/-- A fresh state: secret "s", empty blacklist. -/
def st0 : AppState := { jwt_secret := "s", token_blacklist := [] }

/-- The state after revoking `tok0` in `st0`. -/
def st1 : AppState := { jwt_secret := "s", token_blacklist := [(tok0, 100)] }

example : (verify_token st0 tok0 10).1 = Except.ok c0 := rfl
example : (verify_token st0 tok0 100).1 = Except.ok c0 := rfl
example : (verify_token st0 tok0 101).1 = Except.error Error.TokenExpired := rfl
example : invalidate_token st0 tok0 10 = (Except.ok (), st1) := rfl
example : (invalidate_token st1 tok0 10).1 = Except.error Error.TokenRevoked := rfl
example : (verify_token (cleanup_blacklist st1 100) tok0 100).1 = Except.ok c0 := rfl

/- Helper lemmas. -/

/-- A freshly inserted token is found by the membership check. -/
theorem contains_key_insertEntry_self (bl : Blacklist) (t : TokenStr) (v : Int) :
    Blacklist.contains_key (Blacklist.insertEntry bl t v) t = true := by
  simp [Blacklist.contains_key, Blacklist.insertEntry]

/-- Membership in the blacklist, as a proposition. -/
theorem contains_key_iff (bl : Blacklist) (t : TokenStr) :
    Blacklist.contains_key bl t = true ↔ ∃ p ∈ bl, p.1 = t := by
  simp [Blacklist.contains_key, List.any_eq_true]

/-- Inserting one token does not change membership of any other token. -/
theorem contains_key_insertEntry_ne (bl : Blacklist) (t t' : TokenStr) (v : Int)
    (h : t' ≠ t) :
    Blacklist.contains_key (Blacklist.insertEntry bl t v) t' =
      Blacklist.contains_key bl t' := by
  rw [Bool.eq_iff_iff, contains_key_iff, contains_key_iff]
  constructor
  · rintro ⟨p, hp, hpe⟩
    rcases List.mem_cons.mp hp with h1 | h2
    · rw [h1] at hpe
      exact absurd hpe (fun he => h he.symm)
    · exact ⟨p, (List.mem_filter.mp h2).1, hpe⟩
  · rintro ⟨p, hp, hpe⟩
    refine ⟨p, List.mem_cons.mpr (Or.inr (List.mem_filter.mpr ⟨hp, ?_⟩)), hpe⟩
    simp [hpe, h]

/-- Destructor for a successful verification: the token was not blacklisted,
it decoded under the state secret, and its expiry had not passed. -/
theorem verify_token_result_ok_dest (st : AppState) (t : TokenStr) (now : Int)
    (c : Claims) (h : verify_token_result st t now = Except.ok c) :
    Blacklist.contains_key st.token_blacklist t = false ∧
    jwtDecode t st.jwt_secret now = Except.ok c ∧ ¬ (c.exp < now) := by
  by_cases hb : Blacklist.contains_key st.token_blacklist t
  · unfold verify_token_result at h
    rw [if_pos hb] at h
    simp at h
  · unfold verify_token_result at h
    rw [if_neg hb] at h
    cases hd : jwtDecode t st.jwt_secret now with
    | ok claims =>
        rw [hd] at h
        by_cases he : claims.exp < now
        · simp [he] at h
        · simp [he] at h
          subst h
          exact ⟨by simpa using hb, rfl, he⟩
    | error e =>
        rw [hd] at h
        cases e <;> simp at h

/-- A token that decodes successfully is exactly the signing of the decoded
claims with the presented secret. -/
theorem jwtDecode_ok_dest (t : TokenStr) (secret : String) (now : Int) (c : Claims)
    (h : jwtDecode t secret now = Except.ok c) : t = TokenStr.signed c secret := by
  cases t with
  | malformed r => simp [jwtDecode] at h
  | signed c' s =>
      by_cases hs : s = secret
      · rw [jwtDecode, if_pos hs] at h
        by_cases he : c'.exp < now - jwtLeeway
        · rw [if_pos he] at h; simp at h
        · rw [if_neg he] at h
          injection h with h1
          rw [h1, hs]
      · rw [jwtDecode, if_neg hs] at h; simp at h

/-- Destructor for a successful revocation: the token verified to some
claims, the secret is untouched, and the blacklist gained exactly the entry
mapping the token to those claims' expiry. -/
theorem invalidate_token_ok_dest (st : AppState) (t : TokenStr) (now : Int)
    (st' : AppState) (h : invalidate_token st t now = (Except.ok (), st')) :
    ∃ c : Claims, verify_token_result st t now = Except.ok c ∧
      st'.jwt_secret = st.jwt_secret ∧
      st'.token_blacklist = Blacklist.insertEntry st.token_blacklist t c.exp := by
  rw [invalidate_token] at h
  cases hv : verify_token_result st t now with
  | ok c =>
      rw [hv] at h
      injection h with h1 h2
      exact ⟨c, rfl, by rw [← h2], by rw [← h2]⟩
  | error e =>
      rw [hv] at h
      simp at h

/- Claim theorems. -/

/-- C1: once `invalidate_token` has returned successfully for a token, every
subsequent `verify_token` on that token fails with `TokenRevoked` at every
query time (in particular strictly before the token's expiry); moreover the
blacklist membership check is evaluated first, so any blacklisted token —
even one that would fail decoding or be expired — yields `TokenRevoked`. -/
theorem revocation_precedence (st : AppState) (t : TokenStr) (now : Int)
    (st' : AppState) (h : invalidate_token st t now = (Except.ok (), st')) :
    (∀ now' : Int, (verify_token st' t now').1 = Except.error Error.TokenRevoked) ∧
    (∀ (st₂ : AppState) (t₂ : TokenStr) (now₂ : Int),
      Blacklist.contains_key st₂.token_blacklist t₂ = true →
      (verify_token st₂ t₂ now₂).1 = Except.error Error.TokenRevoked) := by
  obtain ⟨c, hv, hsec, hbl⟩ := invalidate_token_ok_dest st t now st' h
  constructor
  · intro now'
    simp [verify_token, verify_token_result, hbl, contains_key_insertEntry_self]
  · intro st₂ t₂ now₂ hmem
    simp [verify_token, verify_token_result, hmem]

/-- C1 witness: concretely, after revoking `tok0` at time 10 the token is
rejected as revoked at time 50 (well before its expiry 100), and the
blacklisted state rejects it at any time. -/
theorem revocation_precedence_witness :
    (verify_token st1 tok0 50).1 = Except.error Error.TokenRevoked ∧
    (verify_token st1 tok0 999).1 = Except.error Error.TokenRevoked :=
  ⟨(revocation_precedence st0 tok0 10 st1 rfl).1 50,
   (revocation_precedence st0 tok0 10 st1 rfl).2 st1 tok0 999 rfl⟩

/-- C2 counterexample: revoking `tok0` succeeds once, but a second
`invalidate_token` on the already-revoked token returns an error
(`TokenRevoked`), refuting the claim that a second revoke does not error:
`invalidate_token` runs full `verify_token` semantics, including the
revocation check, not verify-minus-revocation. -/
theorem idempotent_revocation_counterexample :
    invalidate_token st0 tok0 10 = (Except.ok (), st1) ∧
    (invalidate_token st1 tok0 10).1 = Except.error Error.TokenRevoked :=
  ⟨rfl, rfl⟩

/-- C2 (amended): a second `invalidate_token` on an already-revoked token
fails with `TokenRevoked` (because revoke applies full verify semantics,
revocation check included) and leaves the state unchanged, so the outcome of
every subsequent `verify_token` call is unchanged by the second revoke. -/
theorem second_revocation_fails (st : AppState) (t : TokenStr) (now : Int)
    (st' : AppState) (h : invalidate_token st t now = (Except.ok (), st'))
    (now₂ : Int) :
    invalidate_token st' t now₂ = (Except.error Error.TokenRevoked, st') := by
  obtain ⟨c, hv, hsec, hbl⟩ := invalidate_token_ok_dest st t now st' h
  have hrev : verify_token_result st' t now₂ = Except.error Error.TokenRevoked := by
    simp [verify_token_result, hbl, contains_key_insertEntry_self]
  rw [invalidate_token, hrev]

/-- C2 witness: concretely, after revoking `tok0` at time 10, a second
revoke at time 20 fails with `TokenRevoked` and leaves the state as it was. -/
theorem second_revocation_fails_witness :
    invalidate_token st1 tok0 20 = (Except.error Error.TokenRevoked, st1) :=
  second_revocation_fails st0 tok0 10 st1 rfl 20

/-- C3 counterexample: `c0` expires at 100, yet `verify_token` at query time
exactly 100 succeeds (the code's expiry comparison `claims.exp < now` is
strict), refuting "fails with TokenExpired at every query time >= t". -/
theorem expiry_monotonicity_counterexample :
    c0.exp = 100 ∧
    (verify_token st0 (jwtEncode c0 st0.jwt_secret) 100).1 = Except.ok c0 :=
  ⟨rfl, rfl⟩

/-- C3 (amended): for a non-revoked token issued with expiry `c.exp`,
`verify_token` succeeds at every query time less than or equal to `c.exp`
and fails with `TokenExpired` at every query time strictly greater. -/
theorem expiry_monotonicity (st : AppState) (c : Claims) (now : Int)
    (hnb : Blacklist.contains_key st.token_blacklist (jwtEncode c st.jwt_secret) = false) :
    (now ≤ c.exp →
      (verify_token st (jwtEncode c st.jwt_secret) now).1 = Except.ok c) ∧
    (c.exp < now →
      (verify_token st (jwtEncode c st.jwt_secret) now).1 =
        Except.error Error.TokenExpired) := by
  constructor
  · intro hle
    have h1 : ¬ (c.exp < now - jwtLeeway) := by unfold jwtLeeway; omega
    have h2 : ¬ (c.exp < now) := by omega
    simp [verify_token, verify_token_result, hnb, jwtDecode, jwtEncode, h1, h2]
    exact hnb
  · intro hgt
    by_cases h1 : c.exp < now - jwtLeeway
    · simp [verify_token, verify_token_result, hnb, jwtDecode, jwtEncode, h1]
      exact hnb
    · simp [verify_token, verify_token_result, hnb, jwtDecode, jwtEncode, h1, hgt]
      exact hnb

/-- C3 witness: concretely, the fresh token `tok0` (expiry 100) verifies at
time 10 and is rejected as expired at time 101. -/
theorem expiry_monotonicity_witness :
    (verify_token st0 (jwtEncode c0 st0.jwt_secret) 10).1 = Except.ok c0 ∧
    (verify_token st0 (jwtEncode c0 st0.jwt_secret) 101).1 =
      Except.error Error.TokenExpired :=
  ⟨(expiry_monotonicity st0 c0 10 rfl).1 (by decide),
   (expiry_monotonicity st0 c0 101 rfl).2 (by decide)⟩

/-- C4: for valid claims (non-empty subject, expiry after issuance) encoded
under the state secret, decoding with the same secret before expiry — both
at the codec level and through the full non-revoked verification path —
yields exactly the original claims (round-trip identity). -/
theorem round_trip (st : AppState) (c : Claims) (now : Int)
    (hsub : c.sub ≠ "") (hwin : c.iat < c.exp)
    (hnb : Blacklist.contains_key st.token_blacklist (jwtEncode c st.jwt_secret) = false)
    (hnow : now < c.exp) :
    jwtDecode (jwtEncode c st.jwt_secret) st.jwt_secret now = Except.ok c ∧
    (verify_token st (jwtEncode c st.jwt_secret) now).1 = Except.ok c := by
  have h1 : ¬ (c.exp < now - jwtLeeway) := by unfold jwtLeeway; omega
  have h2 : ¬ (c.exp < now) := by omega
  constructor
  · simp [jwtDecode, jwtEncode, h1]
  · simp [verify_token, verify_token_result, hnb, jwtDecode, jwtEncode, h1, h2]
    exact hnb

/-- C4 witness: concretely, the claims `c0` round-trip through the codec and
through `verify_token` in the fresh state at time 10. -/
theorem round_trip_witness :
    jwtDecode (jwtEncode c0 st0.jwt_secret) st0.jwt_secret 10 = Except.ok c0 ∧
    (verify_token st0 (jwtEncode c0 st0.jwt_secret) 10).1 = Except.ok c0 :=
  round_trip st0 c0 10 (by decide) (by decide) rfl (by decide)

/-- C5: the HTTP response mapping assigns exactly
InvalidCredentials to 401/invalid_credentials, TokenExpired to
401/token_expired, TokenRevoked to 403/token_revoked, InvalidTokenFormat to
400/invalid_format, TokenValidation to 500/token_invalid, and TokenCreation
to 500/token_creation_failed; the six cases cover every error value. -/
theorem error_response_mapping :
    (Error.status Error.InvalidCredentials = 401 ∧
      Error.code Error.InvalidCredentials = "invalid_credentials") ∧
    (Error.status Error.TokenExpired = 401 ∧
      Error.code Error.TokenExpired = "token_expired") ∧
    (Error.status Error.TokenRevoked = 403 ∧
      Error.code Error.TokenRevoked = "token_revoked") ∧
    (Error.status Error.InvalidTokenFormat = 400 ∧
      Error.code Error.InvalidTokenFormat = "invalid_format") ∧
    (Error.status Error.TokenValidation = 500 ∧
      Error.code Error.TokenValidation = "token_invalid") ∧
    (Error.status Error.TokenCreation = 500 ∧
      Error.code Error.TokenCreation = "token_creation_failed") :=
  ⟨⟨rfl, rfl⟩, ⟨rfl, rfl⟩, ⟨rfl, rfl⟩, ⟨rfl, rfl⟩, ⟨rfl, rfl⟩, ⟨rfl, rfl⟩⟩

/-- C6: any two login requests whose credentials do not match the stored
pair — unknown username or wrong password alike — produce the identical
`InvalidCredentials` failure (no account-enumeration signal), while the
matching login issues a token whose decoded subject equals the supplied
username "admin". -/
theorem login_gating (st : AppState) (now : Int) :
    (∀ r₁ r₂ : LoginRequest,
      ¬(r₁.username = "admin" ∧ r₁.password = "password") →
      ¬(r₂.username = "admin" ∧ r₂.password = "password") →
      login st r₁ now = login st r₂ now ∧
      (login st r₁ now).1 = Except.error Error.InvalidCredentials) ∧
    (∃ tok : TokenStr,
      (login st { username := "admin", password := "password" } now).1 =
        Except.ok { token := tok, token_type := "Bearer", token_expires := now + 3600 } ∧
      ∃ c : Claims, jwtDecode tok st.jwt_secret now = Except.ok c ∧ c.sub = "admin") := by
  constructor
  · intro r₁ r₂ h₁ h₂
    constructor
    · simp [login, if_neg h₁, if_neg h₂]
    · simp [login, if_neg h₁]
  · refine ⟨jwtEncode { sub := "admin", exp := now + 3600, iat := now } st.jwt_secret,
      ?_, { sub := "admin", exp := now + 3600, iat := now }, ?_, rfl⟩
    · simp [login, create_token, jwtEncode]
    · have h1 : ¬ ((now + 3600 : Int) < now - jwtLeeway) := by unfold jwtLeeway; omega
      simp [jwtDecode, jwtEncode, h1]

/-- C6 witness: concretely, a wrong password and an unknown username produce
the same `InvalidCredentials` response, and the matching login issues a
token decoding to subject "admin". -/
theorem login_gating_witness :
    (login st0 { username := "admin", password := "wrong" } 10 =
       login st0 { username := "nobody", password := "x" } 10 ∧
     (login st0 { username := "admin", password := "wrong" } 10).1 =
       Except.error Error.InvalidCredentials) ∧
    (∃ tok : TokenStr,
      (login st0 { username := "admin", password := "password" } 10).1 =
        Except.ok { token := tok, token_type := "Bearer", token_expires := 3610 } ∧
      ∃ c : Claims, jwtDecode tok st0.jwt_secret 10 = Except.ok c ∧ c.sub = "admin") :=
  ⟨(login_gating st0 10).1 { username := "admin", password := "wrong" }
     { username := "nobody", password := "x" } (by decide) (by decide),
   (login_gating st0 10).2⟩

/-- C7 counterexample: `st1` blacklists `tok0` with stored expiry 100; at
sweep time exactly 100 the entry is removed (stored expiry ≤ now), yet
`verify_token` at time 100 then SUCCEEDS — before the sweep it failed with
`TokenRevoked` — so the user-visible outcome flips from reject to accept
across the sweep boundary, refuting the claim at `expires_at = now`. -/
theorem sweep_safety_counterexample :
    (verify_token st1 tok0 100).1 = Except.error Error.TokenRevoked ∧
    cleanup_blacklist st1 100 = st0 ∧
    (verify_token (cleanup_blacklist st1 100) tok0 100).1 = Except.ok c0 :=
  ⟨rfl, rfl, rfl⟩

/-- C7 (amended): `cleanup_blacklist` removes exactly the entries whose
stored expiry is less than or equal to the sweep time; and for a revoked
token whose expiry is strictly less than `now` (in a well-keyed store),
`verify_token` at `now` fails before the sweep with `TokenRevoked` and after
the sweep with `TokenExpired` — at expiry exactly equal to `now` the
post-sweep verification succeeds instead. -/
theorem sweep_safety (st : AppState) (now : Int) :
    (∀ p : TokenStr × Int,
      p ∈ (cleanup_blacklist st now).token_blacklist ↔
        p ∈ st.token_blacklist ∧ now < p.2) ∧
    (∀ c : Claims,
      Blacklist.contains_key st.token_blacklist (jwtEncode c st.jwt_secret) = true →
      (verify_token st (jwtEncode c st.jwt_secret) now).1 =
        Except.error Error.TokenRevoked) ∧
    (BlacklistInv st.token_blacklist →
      ∀ c : Claims, c.exp < now →
      (verify_token (cleanup_blacklist st now) (jwtEncode c st.jwt_secret) now).1 =
        Except.error Error.TokenExpired) := by
  refine ⟨?_, ?_, ?_⟩
  · intro p
    simp [cleanup_blacklist, List.mem_filter]
  · intro c hmem
    simp [verify_token, verify_token_result, hmem]
  · intro hinv c hlt
    have hnb : Blacklist.contains_key (cleanup_blacklist st now).token_blacklist
        (jwtEncode c st.jwt_secret) = false := by
      by_contra hcon
      rw [Bool.not_eq_false, contains_key_iff] at hcon
      obtain ⟨p, hp, hpe⟩ := hcon
      simp [cleanup_blacklist, List.mem_filter] at hp
      have hk := hinv p hp.1
      rw [hpe] at hk
      simp [jwtEncode, tokenExp] at hk
      omega
    by_cases h1 : c.exp < now - jwtLeeway
    · simp [verify_token, verify_token_result, hnb, jwtDecode, jwtEncode, h1,
        cleanup_blacklist]
      exact hnb
    · simp [verify_token, verify_token_result, hnb, jwtDecode, jwtEncode, h1, hlt,
        cleanup_blacklist]
      exact hnb

/-- C7 witness: concretely, sweeping `st1` at time 200 removes the entry for
`tok0` (stored expiry 100 ≤ 200) and verification of `tok0` at 200 then
fails with `TokenExpired`; before the sweep it failed with `TokenRevoked`. -/
theorem sweep_safety_witness :
    ((tok0, (100 : Int)) ∈ (cleanup_blacklist st1 200).token_blacklist ↔
      (tok0, (100 : Int)) ∈ st1.token_blacklist ∧ (200 : Int) < 100) ∧
    (verify_token st1 (jwtEncode c0 st1.jwt_secret) 200).1 =
      Except.error Error.TokenRevoked ∧
    (verify_token (cleanup_blacklist st1 200) (jwtEncode c0 st1.jwt_secret) 200).1 =
      Except.error Error.TokenExpired :=
  ⟨(sweep_safety st1 200).1 (tok0, 100),
   (sweep_safety st1 200).2.1 c0 rfl,
   (sweep_safety st1 200).2.2
     (by intro p hp
         rw [show st1.token_blacklist = [(tok0, 100)] from rfl, List.mem_singleton] at hp
         rw [hp]
         rfl)
     c0 (by decide)⟩

/-- C8: the request gate fails with the 401 missing-authorization response
when the Authorization header is absent, fails with the 401 invalid-format
response when the header does not carry the Bearer scheme marker, otherwise
strips the marker and delegates the remainder to token verification (mapping
failures through the error-to-response conversion); on every failure the
result is the error response alone, independent of the downstream handler,
which is never invoked. -/
theorem request_gate {α : Type} (st : AppState) (now : Int) (next : Claims → α) :
    middleware st none now next =
      Except.error { status := 401, error := "Missing authorization header", code := none } ∧
    (∀ raw : String,
      middleware st (some (HeaderValue.nonBearer raw)) now next =
        Except.error
          { status := 401, error := "Invalid authorization header format", code := none }) ∧
    (∀ t : TokenStr,
      decode_token st (some (HeaderValue.bearer t)) now =
        match verify_token_result st t now with
        | Except.error e => Except.error (Error.toResp e)
        | Except.ok claims => Except.ok (t, claims)) ∧
    (∀ (req : Option HeaderValue) (e : ErrResp),
      decode_token st req now = Except.error e →
      middleware st req now next = Except.error e) := by
  refine ⟨rfl, fun raw => rfl, fun t => rfl, fun req e h => ?_⟩
  simp [middleware, h]

/-- C8 witness: concretely, with a trivial downstream handler, a request
without an Authorization header is short-circuited with the 401
missing-authorization response. -/
theorem request_gate_witness :
    middleware st0 none 10 (fun _ => (0 : Nat)) =
      Except.error { status := 401, error := "Missing authorization header", code := none } :=
  (@request_gate Nat st0 10 (fun _ => 0)).2.2.2 none
    { status := 401, error := "Missing authorization header", code := none } rfl

/-- C9: failing `login` and `verify_token` calls leave the state — in
particular the token blacklist — exactly as it was: neither operation
inserts, removes, or overwrites any revocation entry. -/
theorem no_mutation_on_failure (st : AppState) (credentials : LoginRequest)
    (t : TokenStr) (now : Int) :
    (∀ e : Error, (login st credentials now).1 = Except.error e →
      (login st credentials now).2 = st) ∧
    (∀ e : Error, (verify_token st t now).1 = Except.error e →
      (verify_token st t now).2 = st) :=
  ⟨fun _ _ => rfl, fun _ _ => rfl⟩

/-- C9 witness: concretely, a failing login (wrong password) and a failing
verification (revoked token) both return the state unchanged. -/
theorem no_mutation_on_failure_witness :
    (login st0 { username := "admin", password := "wrong" } 10).2 = st0 ∧
    (verify_token st1 tok0 10).2 = st1 :=
  ⟨(no_mutation_on_failure st0 { username := "admin", password := "wrong" } tok0 10).1
     Error.InvalidCredentials rfl,
   (no_mutation_on_failure st1 { username := "admin", password := "wrong" } tok0 10).2
     Error.TokenRevoked rfl⟩

/-- C10: a successful `invalidate_token` inserts exactly the presented raw
token string, mapped to the `exp` claim that token decodes to; the
well-keyed-store invariant (every entry's stored value is the expiry of the
token keying it) is preserved; and since the revocation check is exact
equality on the token string, revoking one token never changes the
verification outcome of any other token string. -/
theorem revocation_store_exact_keying (st : AppState) (t : TokenStr) (now : Int)
    (st' : AppState) (h : invalidate_token st t now = (Except.ok (), st')) :
    (∃ c : Claims, jwtDecode t st.jwt_secret now = Except.ok c ∧
      st'.token_blacklist = Blacklist.insertEntry st.token_blacklist t c.exp) ∧
    (BlacklistInv st.token_blacklist → BlacklistInv st'.token_blacklist) ∧
    (∀ (t' : TokenStr) (now' : Int), t' ≠ t →
      (verify_token st' t' now').1 = (verify_token st t' now').1) := by
  obtain ⟨c, hv, hsec, hbl⟩ := invalidate_token_ok_dest st t now st' h
  obtain ⟨hnb, hdec, hexp⟩ := verify_token_result_ok_dest st t now c hv
  refine ⟨⟨c, hdec, hbl⟩, ?_, ?_⟩
  · intro hinv p hp
    rw [hbl] at hp
    rcases List.mem_cons.mp hp with h1 | h2
    · rw [h1, jwtDecode_ok_dest t st.jwt_secret now c hdec]
      rfl
    · exact hinv p (List.mem_filter.mp h2).1
  · intro t' now' hne
    show verify_token_result st' t' now' = verify_token_result st t' now'
    unfold verify_token_result
    rw [hsec, hbl, contains_key_insertEntry_ne st.token_blacklist t t' c.exp hne]

/-- C10 witness: concretely, after revoking `tok0` the store satisfies the
well-keyed invariant, and an unrelated (malformed) token string verifies
exactly as it did before the revocation. -/
theorem revocation_store_exact_keying_witness :
    BlacklistInv st1.token_blacklist ∧
    (verify_token st1 (TokenStr.malformed "x") 10).1 =
      (verify_token st0 (TokenStr.malformed "x") 10).1 :=
  ⟨(revocation_store_exact_keying st0 tok0 10 st1 rfl).2.1
     (fun p hp => absurd hp (List.not_mem_nil p)),
   (revocation_store_exact_keying st0 tok0 10 st1 rfl).2.2
     (TokenStr.malformed "x") 10 (by decide)⟩

end FastapiAuth
